import Mathlib

/-!
A verification development for the qevy map-build pipeline
(`src/build.rs`, `src/load.rs`).

Modelling conventions, used throughout:

* Machine floats (`f32`) are modelled by `ℚ`.  Every numeric constant a claim
  mentions (1.0, 2.0, 50.0, 10, 40, 60, …) is exactly representable in `f32`,
  so the rational model is faithful for the claims at hand.
* Bevy/ECS `Entity` identifiers are modelled by `ℕ`; identifier values are
  allocated by the engine and are opaque, no claim compares them, so the build
  model uses placeholder ids.
* A Rust `panic!` / `.unwrap()` failure aborts the build; fallible code is
  modelled in `Except BuildError`.
* `material_handles` and `texture_sizes` are two `BTreeMap`s keyed by texture
  name that `load.rs` always populates together (one handle per texture name),
  so they are modelled as a single table `MatTable`, and a material handle is
  identified by its texture name.
* The external geometry library (shambler) returns per-face vertex loops,
  triangle indices, flat normals and UVs keyed by face id; faces may be absent
  from the triangulation output (`face_triangle_indices.contains_key` check in
  `build_map`).  A face is therefore modelled as a record bundling its texture
  name, an `hasIndices` flag, and its (already basis-converted) vertex /
  normal / uv / index data.
-/

/-- A 3-component vector with rational coordinates (models bevy `Vec3`). -/
structure Vec3 where
  x : ℚ
  y : ℚ
  z : ℚ
deriving DecidableEq

def Vec3.zero : Vec3 := ⟨0, 0, 0⟩

/-- The up vector `Vec3::new(0.0, 1.0, 0.0)` used for foliage normals. -/
def Vec3.up : Vec3 := ⟨0, 1, 0⟩

/-- `leadsWith needle hay` is true when `needle` is an initial segment of
`hay` (character lists). -/
def leadsWith : List Char → List Char → Bool
  | [], _ => true
  | _ :: _, [] => false
  | a :: as, b :: bs => a == b && leadsWith as bs

/-- `subIn needle hay` is true when `needle` occurs contiguously in `hay`. -/
def subIn (needle : List Char) : List Char → Bool
  | [] => leadsWith needle []
  | c :: cs => leadsWith needle (c :: cs) || subIn needle cs

/-- Substring containment on strings; models Rust `str::contains`
(e.g. `texture_name.contains("-f")`). -/
def strHasSub (hay needle : String) : Bool :=
  subIn needle.toList hay.toList

/-- Numeric value of a decimal digit character, if it is one. -/
def digitVal? (c : Char) : Option ℕ :=
  if c.isDigit then some (c.toNat - 48) else none

/-- Value of a nonempty run of decimal digits; `none` if empty or if any
character is not a digit. -/
def natOfDigits? (cs : List Char) : Option ℕ :=
  if cs.isEmpty then none
  else cs.foldlM (fun acc c => (digitVal? c).map (fun d => acc * 10 + d)) 0

/-- Split a character list at the first `'.'`, if any. -/
def splitDot : List Char → List Char × Option (List Char)
  | [] => ([], none)
  | c :: rest =>
    if c = '.' then ([], some rest)
    else
      match splitDot rest with
      | (before, after) => (c :: before, after)

/-- Unsigned decimal literal: digits with an optional fractional part. -/
def parseUnsigned? (cs : List Char) : Option ℚ :=
  match splitDot cs with
  | (intPart, none) => (natOfDigits? intPart).map (fun n => (n : ℚ))
  | (intPart, some fracPart) =>
    match natOfDigits? intPart, natOfDigits? fracPart with
    | some i, some f => some ((i : ℚ) + (f : ℚ) / (10 : ℚ) ^ fracPart.length)
    | _, _ => none

/-- Models Rust `str::parse::<f32>()` on plain decimal literals: optional
sign, integer digits, optional fractional digits.  Exotic accepted forms
(scientific notation, `inf`, `nan`, a bare trailing `.`) are treated as parse
failures; no claim depends on them.  Returns `none` exactly when the Rust
parse would return `Err` on the literal forms the claims exercise. -/
def parseNum? (s : String) : Option ℚ :=
  match s.toList with
  | '-' :: rest => (parseUnsigned? rest).map (fun q => -q)
  | '+' :: rest => parseUnsigned? rest
  | cs => parseUnsigned? cs

/-- Split on single spaces, keeping empty chunks; the behavior of Rust
`str::split(" ")` (and of `String.splitOn " "`): the empty string yields
`[""]`, consecutive separators yield empty tokens. -/
def splitSpacesAux : List Char → List Char → List String
  | [], cur => [String.mk cur.reverse]
  | c :: cs, cur =>
    if c = ' ' then String.mk cur.reverse :: splitSpacesAux cs []
    else splitSpacesAux cs (c :: cur)

def splitSpaces (s : String) : List String :=
  splitSpacesAux s.toList []

/-- Entity property bags (`Vec<Property>` in shalrath).  `build_map` collects
them into a `BTreeMap`, where a later duplicate key overwrites an earlier
one; hence lookup returns the last binding. -/
abbrev Props := List (String × String)

/-- Property lookup after the `BTreeMap` collection step of `build_map`
(last duplicate wins). -/
def getProp (props : Props) (k : String) : Option String :=
  (props.reverse.find? (fun p => p.1 == k)).map (fun p => p.2)

/-- The errors with which the build can abort (Rust panics in `build_map`). -/
inductive BuildError where
  /-- `translation[i].parse::<f32>().unwrap()` (or the `rotation` copy)
  panicking on a malformed token. -/
  | parsePanic
  /-- `panic!("brush entity {} has no properties!")`. -/
  | noProperties
  /-- `props.get("target").unwrap()` panicking for a trigger brush. -/
  | missingTarget
deriving DecidableEq

/-- The `origin`/`angles` parsing in `build_map`: split on a single space;
when exactly three tokens are present each is parsed with
`.parse::<f32>().unwrap()` (panic on failure); any other token count falls
through to the default (`Vec3::ZERO` / `Quat::IDENTITY`), reported as
`ok none`. -/
def parseTriple (s : String) : Except BuildError (Option Vec3) :=
  match splitSpaces s with
  | [t0, t1, t2] =>
    match parseNum? t0, parseNum? t1, parseNum? t2 with
    | some a, some b, some c => .ok (some ⟨a, b, c⟩)
    | _, _, _ => .error .parsePanic
  | _ => .ok none

/-- A render-mesh fragment: the attributes `build_map` inserts
(`ATTRIBUTE_POSITION`, `ATTRIBUTE_NORMAL`, `ATTRIBUTE_UV_0`, `U32` indices).
Tangents (`generate_tangents`) are derived data and are not modelled; their
generation failure is logged and non-fatal. -/
structure MeshQ where
  positions : List Vec3
  normals : List Vec3
  uvs : List (ℚ × ℚ)
  indices : List ℕ
deriving DecidableEq

/-- Bevy `Mesh::merge`: concatenates the attribute arrays and appends the
other mesh's indices offset by the first mesh's vertex count. -/
def MeshQ.merge (a b : MeshQ) : MeshQ :=
  { positions := a.positions ++ b.positions
    normals := a.normals ++ b.normals
    uvs := a.uvs ++ b.uvs
    indices := a.indices ++ b.indices.map (fun i => i + a.positions.length) }

/-- One brush face, bundling the per-face tables `build_map` reads:
the texture name (`face_textures` ∘ `textures`), whether the face occurs in
the triangulation output (`face_triangle_indices.contains_key`), and its
basis-converted vertex / normal / uv / index data. -/
structure Face where
  texture : String
  hasIndices : Bool
  vertices : List Vec3
  normals : List Vec3
  uvs : List (ℚ × ℚ)
  indices : List ℕ
deriving DecidableEq

/-- The reserved non-rendering texture names of `build_map`. -/
def reservedNoRender (t : String) : Bool :=
  t == "trigger" || t == "clip" || t == "common/trigger" || t == "common/clip"

/-- Insert a face mesh into the per-texture accumulation map
(`meshes_to_spawn.entry(texture_name)`): an occupied entry merges the new
fragment into the existing mesh, a vacant entry inserts it. -/
def upsertMesh : List (String × MeshQ) → String → MeshQ → List (String × MeshQ)
  | [], k, mesh => [(k, mesh)]
  | (k', m') :: rest, k, mesh =>
    if k' == k then (k', m'.merge mesh) :: rest
    else (k', m') :: upsertMesh rest k mesh

/-- The per-brush accumulator of `build_map`'s face loop:
`brush_vertices`, `meshes_to_spawn`, `has_foliage`. -/
structure FaceAccum where
  brushVertices : List Vec3
  meshesToSpawn : List (String × MeshQ)
  hasFoliage : Bool
deriving DecidableEq

/-- One iteration of the `for face_id in brush_faces` loop of `build_map`:
skip faces absent from the triangulation output; extend the brush-wide vertex
set; skip reserved non-render textures; override normals to straight up and
record foliage for textures containing `"-f"`; merge the face mesh into the
per-texture map. -/
def stepFace (acc : FaceAccum) (f : Face) : FaceAccum :=
  if !f.hasIndices then acc
  else
    let acc' : FaceAccum := { acc with brushVertices := acc.brushVertices ++ f.vertices }
    if reservedNoRender f.texture then acc'
    else
      let foliage := strHasSub f.texture "-f"
      let normals := if foliage then f.normals.map (fun _ => Vec3.up) else f.normals
      let mesh : MeshQ := ⟨f.vertices, normals, f.uvs, f.indices⟩
      { brushVertices := acc'.brushVertices
        meshesToSpawn := upsertMesh acc'.meshesToSpawn f.texture mesh
        hasFoliage := acc'.hasFoliage || foliage }

/-- The whole face loop of `build_map` for one brush. -/
def buildBrushFaces (faces : List Face) : FaceAccum :=
  faces.foldl stepFace ⟨[], [], false⟩

/-- Which faces set `has_foliage` (have triangulation output, are not a
reserved non-render texture, and contain the foliage marker `"-f"`). -/
def foliageFace (f : Face) : Bool :=
  f.hasIndices && !reservedNoRender f.texture && strHasSub f.texture "-f"

/-- Modelled from the spec: the external collision port
"a point set in → an optional convex volume handle out (some point sets may
be degenerate and yield no volume)" (`avian3d::prelude::Collider::convex_hull`
is external library code).  Degeneracy is approximated by having fewer than
four points; every claim depends only on whether the result is `some`. -/
def convexHull? (pts : List Vec3) : Option (List Vec3) :=
  if 4 ≤ pts.length then some pts else none

/-- The material / texture-size table of `MapAsset`.  `load.rs` inserts
`material_handles[name]` and `texture_sizes[name]` together, one entry per
texture with a base-color image, so both maps are modelled as one table from
texture name to pixel size; a material handle is identified by its texture
name (one handle per name). -/
abbrev MatTable := List (String × (ℕ × ℕ))

/-- `map_asset.material_handles.contains_key(texture_name)`. -/
def hasMaterial (mats : MatTable) (t : String) : Bool :=
  (mats.find? (fun p => p.1 == t)).isSome

/-- `map_asset.texture_sizes.get(texture_name).unwrap()`; total with a junk
default, only ever read for registered textures. -/
def materialSize (mats : MatTable) (t : String) : ℕ × ℕ :=
  ((mats.find? (fun p => p.1 == t)).map (fun p => p.2)).getD (0, 0)

/-- The `SpawnMeshEvent` record sent by `build_map`. -/
structure SpawnEv where
  map : ℕ
  brush : ℕ
  mesh : MeshQ
  collider : Option ℕ
  material : String
  textureName : String
  textureSize : ℕ × ℕ
deriving DecidableEq

/-- What `build_map` attaches to a brush's collision-volume node after the
convex hull succeeded. -/
inductive ColliderAttach where
  /-- `TriggerMultiple { target }` + dynamic rigid body + sensor. -/
  | triggerMultiple (target : String)
  /-- `TriggerOnce { target }` + dynamic rigid body + sensor. -/
  | triggerOnce (target : String)
  /-- foliage: the node is kept but its `Collider` component is removed
  (`collider.remove::<Collider>()`), i.e. no collision volume. -/
  | noCollide
  /-- `RigidBody::Static` with the convex-hull collider. -/
  | staticSolid
deriving DecidableEq

/-- The outcome of `build_map` for one brush: the collision-volume node
(`none` when the convex hull was degenerate and no node was spawned at all)
and the mesh-spawn events sent for it. -/
structure BrushResult where
  collider : Option ColliderAttach
  events : List SpawnEv
deriving DecidableEq

/-- The per-brush body of `build_map` (avian backend, the primary path): run
the face loop, build the convex hull from the accumulated point set; when a
hull exists classify the collider by classname (trigger classes read the
required `target` property with `.unwrap()`, panicking when absent; foliage
removes the collider; otherwise static) and send one `SpawnMeshEvent` per
accumulated texture that has a registered material. -/
def buildBrush (mats : MatTable) (mapId brushEntId colliderId : ℕ)
    (classname : String) (props : Props) (faces : List Face) :
    Except BuildError BrushResult :=
  match convexHull? (buildBrushFaces faces).brushVertices with
  | none => .ok ⟨none, []⟩
  | some _ =>
    Except.map
      (fun attach =>
        { collider := some attach
          events :=
            ((buildBrushFaces faces).meshesToSpawn.filter
                (fun p => hasMaterial mats p.1)).map fun p =>
              { map := mapId
                brush := brushEntId
                mesh := p.2
                collider := some colliderId
                material := p.1
                textureName := p.1
                textureSize := materialSize mats p.1 } })
      (if classname == "trigger_multiple" then
        match getProp props "target" with
        | some t => .ok (.triggerMultiple t)
        | none => .error .missingTarget
      else if classname == "trigger_once" then
        match getProp props "target" with
        | some t => .ok (.triggerOnce t)
        | none => .error .missingTarget
      else if (buildBrushFaces faces).hasFoliage then .ok .noCollide
      else .ok .staticSolid)

/-- A brush-bearing map entity (`geomap.entity_brushes` entry): the entity's
property record if `entity_properties` has one, and its brushes' face lists
(`brush_faces`; shambler's `GeoMap` has a `brush_faces` entry for every brush
id it lists, so the faces are carried inline). -/
structure BrushEnt where
  props? : Option Props
  brushes : List (List Face)
deriving DecidableEq

/-- Monadic map over `Except`, modelling a Rust `for` loop in which an
iteration can panic: the first error aborts everything after it. -/
def exceptMap (f : α → Except BuildError β) : List α → Except BuildError (List β)
  | [] => .ok []
  | a :: as =>
    match f a with
    | .error err => .error err
    | .ok b =>
      match exceptMap f as with
      | .error err => .error err
      | .ok bs => .ok (b :: bs)

/-- Result of spawning one brush-bearing entity: its per-brush results and
the `TriggerTarget` marker condition (`targetname` property). -/
structure BrushEntOut where
  classname : String
  results : List BrushResult
  targetname : Option String
deriving DecidableEq

/-- The `for (entity_id, brushes) in geomap.entity_brushes` body of
`build_map`: panic when the entity has no properties record, read the
classname (default `""`), process every brush, and attach `TriggerTarget`
when `targetname` is present. -/
def buildBrushEnt (mats : MatTable) (mapId : ℕ) (e : BrushEnt) :
    Except BuildError BrushEntOut :=
  match e.props? with
  | none => .error .noProperties
  | some props =>
    Except.map
      (fun results =>
        ⟨(getProp props "classname").getD "", results, getProp props "targetname"⟩)
      (exceptMap
        (buildBrush mats mapId 0 0 ((getProp props "classname").getD "") props)
        e.brushes)

/-- Modelled from the spec: the `MapUnits` resource feeding the
basis-conversion utility (its definition is not among the provided sources);
a single unit-scale factor. -/
structure MapUnits where
  scale : ℚ
deriving DecidableEq

/-- Modelled from the spec: `to_bevy_position`, the "single pure conversion
utility applied uniformly to every position read from source data"
(`conversions.rs` is not among the provided sources).  A fixed linear
basis remap (z-up to y-up) with unit scaling; its exact axis convention
affects no claim — only that it is linear, so the zero vector maps to zero. -/
def toBevyPosition (v : Vec3) (u : MapUnits) : Vec3 :=
  ⟨v.x * u.scale, v.z * u.scale, -(v.y * u.scale)⟩

/-- Modelled from the spec: `to_bevy_rotation` (`conversions.rs` is not among
the provided sources).  A rotation is represented by its converted
Euler-angle triple; `Quat::IDENTITY` corresponds to the zero triple, as for
the real quaternion of zero angles. -/
def toBevyRotation (v : Vec3) : Vec3 :=
  ⟨v.x, v.z, v.y⟩

/-- What `build_map` spawns for one point entity: `MapEntityProperties`
(classname, transform, property map) plus the conditional `TriggerTarget`. -/
structure PointSpawn where
  classname : String
  translation : Vec3
  rotation : Vec3
  properties : Props
  targetname : Option String
deriving DecidableEq

/-- The point-entity pass of `build_map` for one entity: defaults
`"0 0 0"` for `origin`/`angles`, three-token parse with panicking `unwrap`s,
fallback `Vec3::ZERO` / `Quat::IDENTITY` on any other token count. -/
def resolvePointEnt (u : MapUnits) (e : Props) : Except BuildError PointSpawn :=
  match parseTriple ((getProp e "origin").getD "0 0 0") with
  | .error err => .error err
  | .ok o? =>
    match parseTriple ((getProp e "angles").getD "0 0 0") with
    | .error err => .error err
    | .ok a? =>
      .ok ⟨(getProp e "classname").getD "",
        (match o? with
          | some v => toBevyPosition v u
          | none => Vec3.zero),
        (match a? with
          | some v => toBevyRotation v
          | none => Vec3.zero),
        e, getProp e "targetname"⟩

/-- The input `build_map` consumes: properties of entities without brushes
(`entity_properties` minus `entity_brushes`), the brush-bearing entities, and
the material table of the map asset. -/
structure MapInput where
  pointEnts : List Props
  brushEnts : List BrushEnt
  mats : MatTable
deriving DecidableEq

/-- Everything `build_map` spawned (when it did not panic). -/
structure MapOutput where
  points : List PointSpawn
  brushResults : List BrushEntOut
deriving DecidableEq

/-- `build_map`: the point-entity pass followed by the brush-entity pass;
a panic anywhere aborts the whole build. -/
def buildMap (u : MapUnits) (mapId : ℕ) (inp : MapInput) :
    Except BuildError MapOutput :=
  match exceptMap (resolvePointEnt u) inp.pointEnts with
  | .error err => .error err
  | .ok points =>
    match exceptMap (buildBrushEnt inp.mats mapId) inp.brushEnts with
    | .error err => .error err
    | .ok brushResults => .ok ⟨points, brushResults⟩

/-- A vector property string that makes the three-token parse panic: exactly
three space-separated tokens, at least one of which is not numeric. -/
def badTriple (s : String) : Bool :=
  match splitSpaces s with
  | [t0, t1, t2] => !((parseNum? t0).isSome && (parseNum? t1).isSome && (parseNum? t2).isSome)
  | _ => false

/-- A point entity on which the point-entity pass panics. -/
def pointAborts (e : Props) : Bool :=
  badTriple ((getProp e "origin").getD "0 0 0") ||
  badTriple ((getProp e "angles").getD "0 0 0")

/-- A brush on which the collider classification panics: its point set yields
a convex hull, its entity is trigger-classed, and `target` is absent. -/
def brushAborts (classname : String) (props : Props) (faces : List Face) : Bool :=
  (convexHull? (buildBrushFaces faces).brushVertices).isSome &&
  (classname == "trigger_multiple" || classname == "trigger_once") &&
  (getProp props "target").isNone

/-- A brush-bearing entity on which `build_map` panics. -/
def brushEntAborts (e : BrushEnt) : Bool :=
  match e.props? with
  | none => true
  | some props =>
    e.brushes.any (brushAborts ((getProp props "classname").getD "") props)

/-- A 3×3 rational matrix with explicit entries (the linear part of a
transform matrix). -/
structure Mat3 where
  m11 : ℚ
  m12 : ℚ
  m13 : ℚ
  m21 : ℚ
  m22 : ℚ
  m23 : ℚ
  m31 : ℚ
  m32 : ℚ
  m33 : ℚ
deriving DecidableEq

def Mat3.id : Mat3 := ⟨1, 0, 0, 0, 1, 0, 0, 0, 1⟩

def Mat3.mul (a b : Mat3) : Mat3 :=
  ⟨a.m11 * b.m11 + a.m12 * b.m21 + a.m13 * b.m31,
   a.m11 * b.m12 + a.m12 * b.m22 + a.m13 * b.m32,
   a.m11 * b.m13 + a.m12 * b.m23 + a.m13 * b.m33,
   a.m21 * b.m11 + a.m22 * b.m21 + a.m23 * b.m31,
   a.m21 * b.m12 + a.m22 * b.m22 + a.m23 * b.m32,
   a.m21 * b.m13 + a.m22 * b.m23 + a.m23 * b.m33,
   a.m31 * b.m11 + a.m32 * b.m21 + a.m33 * b.m31,
   a.m31 * b.m12 + a.m32 * b.m22 + a.m33 * b.m32,
   a.m31 * b.m13 + a.m32 * b.m23 + a.m33 * b.m33⟩

def Mat3.mulVec (a : Mat3) (v : Vec3) : Vec3 :=
  ⟨a.m11 * v.x + a.m12 * v.y + a.m13 * v.z,
   a.m21 * v.x + a.m22 * v.y + a.m23 * v.z,
   a.m31 * v.x + a.m32 * v.y + a.m33 * v.z⟩

def Mat3.det (a : Mat3) : ℚ :=
  a.m11 * (a.m22 * a.m33 - a.m23 * a.m32) -
  a.m12 * (a.m21 * a.m33 - a.m23 * a.m31) +
  a.m13 * (a.m21 * a.m32 - a.m22 * a.m31)

/-- Cofactor inverse of a 3×3 matrix (the true inverse for invertible
matrices; for a singular matrix `glam`'s `Mat4::inverse` is likewise
unspecified garbage, a case no claim exercises). -/
def Mat3.inv (a : Mat3) : Mat3 :=
  let d := a.det
  ⟨(a.m22 * a.m33 - a.m23 * a.m32) / d,
   (a.m13 * a.m32 - a.m12 * a.m33) / d,
   (a.m12 * a.m23 - a.m13 * a.m22) / d,
   (a.m23 * a.m31 - a.m21 * a.m33) / d,
   (a.m11 * a.m33 - a.m13 * a.m31) / d,
   (a.m13 * a.m21 - a.m11 * a.m23) / d,
   (a.m21 * a.m32 - a.m22 * a.m31) / d,
   (a.m12 * a.m31 - a.m11 * a.m32) / d,
   (a.m11 * a.m22 - a.m12 * a.m21) / d⟩

/-- An affine transform over `ℚ³`: a bevy `Transform` modelled by its
computed matrix (`Transform::compute_matrix` yields the affine TRS matrix;
only `compute_matrix`, `from_matrix`, `translation` and matrix products /
inverses of transforms are used by `mesh_spawn_system`, so the matrix is the
whole state; `translation` is the `tr` column). -/
structure AffQ where
  lin : Mat3
  tr : Vec3
deriving DecidableEq

/-- `Transform::IDENTITY`. -/
def AffQ.id : AffQ := ⟨Mat3.id, Vec3.zero⟩

/-- Matrix product `a * b` of the two affine matrices. -/
def AffQ.comp (a b : AffQ) : AffQ :=
  ⟨a.lin.mul b.lin,
   ⟨(a.lin.mulVec b.tr).x + a.tr.x,
    (a.lin.mulVec b.tr).y + a.tr.y,
    (a.lin.mulVec b.tr).z + a.tr.z⟩⟩

/-- `Mat4::inverse` of an affine matrix:
`(A, t)⁻¹ = (A⁻¹, -A⁻¹ t)`. -/
def AffQ.inv (a : AffQ) : AffQ :=
  let li := a.lin.inv
  ⟨li, ⟨-(li.mulVec a.tr).x, -(li.mulVec a.tr).y, -(li.mulVec a.tr).z⟩⟩

/-- Apply the affine matrix to a point. -/
def AffQ.apply (a : AffQ) (v : Vec3) : Vec3 :=
  ⟨(a.lin.mulVec v).x + a.tr.x,
   (a.lin.mulVec v).y + a.tr.y,
   (a.lin.mulVec v).z + a.tr.z⟩

/-- `Mesh::transformed_by` after `Transform::from_matrix`: the positions are
mapped through the affine matrix.  (Bevy additionally rotates the normal
attribute; the claims concern the vertex positions only, so normals are
carried through unchanged.) -/
def MeshQ.transformedBy (m : MeshQ) (a : AffQ) : MeshQ :=
  { m with positions := m.positions.map a.apply }

/-- The `transforms : Query<&Transform>` of `mesh_spawn_system`, as a table
from entity id to that entity's transform;
`transforms.get(e).unwrap_or(&Transform::IDENTITY)` falls back to the
identity for a stale id. -/
abbrev TransformTable := List (ℕ × AffQ)

def lookupTransform (tfs : TransformTable) (n : ℕ) : AffQ :=
  (((tfs.find? (fun p => p.1 == n)).map (fun p => p.2)).getD AffQ.id)

/-- The reference-node transform of an event:
`ev.collider.map(|c| transforms.get(c)…).unwrap_or_else(|| transforms.get(ev.map)…)`. -/
def refTransform (tfs : TransformTable) (ev : SpawnEv) : AffQ :=
  match ev.collider with
  | some c => lookupTransform tfs c
  | none => lookupTransform tfs ev.map

/-- `mesh.compute_aabb()` center: componentwise `(min + max) / 2` over the
positions; the `unwrap_or` default for an attribute-less AABB is the zero
box, so an empty position list yields center zero. -/
def aabbCenter (m : MeshQ) : Vec3 :=
  match m.positions with
  | [] => Vec3.zero
  | p :: ps =>
    let lo := ps.foldl (fun acc q => ⟨min acc.x q.x, min acc.y q.y, min acc.z q.z⟩) p
    let hi := ps.foldl (fun acc q => ⟨max acc.x q.x, max acc.y q.y, max acc.z q.z⟩) p
    ⟨(lo.x + hi.x) / 2, (lo.y + hi.y) / 2, (lo.z + hi.z) / 2⟩

/-- The spatial bucket of `mesh_spawn_system`: per axis,
`((transform.translation + aabb.center) / 50.0).floor() as i32`. -/
def bucketOf (t : AffQ) (m : MeshQ) : ℤ × ℤ × ℤ :=
  let c := aabbCenter m
  (Int.floor ((t.tr.x + c.x) / 50),
   Int.floor ((t.tr.y + c.y) / 50),
   Int.floor ((t.tr.z + c.z) / 50))

/-- The grouping key of `consolidated_meshes`:
`(ev.brush, ev.material, bucket)`. -/
abbrev GroupKey := ℕ × String × (ℤ × ℤ × ℤ)

def keyOf (tfs : TransformTable) (ev : SpawnEv) : GroupKey :=
  (ev.brush, ev.material, bucketOf (refTransform tfs ev) ev.mesh)

/-- The value stored per group:
`(Option<Entity>, Entity, Mesh, (u32, u32), String)` =
(collider, map, mesh, texture size, texture name). -/
structure GroupVal where
  collider : Option ℕ
  map : ℕ
  mesh : MeshQ
  texSize : ℕ × ℕ
  texName : String
deriving DecidableEq

/-- The `Occupied` branch of `mesh_spawn_system`: look up the incoming
event's reference transform and the group's stored reference transform
(first fragment's), form
`final_transform = transform.compute_matrix().inverse() * other_transform.compute_matrix()`,
and merge the incoming mesh transformed by it into the group mesh.
(The branch also spawns a provenance `Brush` marker child; markers carry no
geometry and no claim mentions them, so they are not modelled.) -/
def mergeIntoGroup (tfs : TransformTable) (entry : GroupVal) (ev : SpawnEv) : GroupVal :=
  let transform := refTransform tfs ev
  let otherTransform :=
    match entry.collider with
    | some c => lookupTransform tfs c
    | none => lookupTransform tfs entry.map
  let finalTransform := AffQ.comp (AffQ.inv transform) otherTransform
  { entry with mesh := entry.mesh.merge (ev.mesh.transformedBy finalTransform) }

/-- Process one event against the accumulated groups
(`consolidated_meshes.entry(key)`): merge into an occupied entry, insert the
event's data into a vacant one. -/
def upsertGroup (tfs : TransformTable) :
    List (GroupKey × GroupVal) → SpawnEv → List (GroupKey × GroupVal)
  | [], ev =>
    [(keyOf tfs ev, ⟨ev.collider, ev.map, ev.mesh, ev.textureSize, ev.textureName⟩)]
  | (k', g) :: rest, ev =>
    if k' = keyOf tfs ev then (k', mergeIntoGroup tfs g ev) :: rest
    else (k', g) :: upsertGroup tfs rest ev

/-- Group lookup by key. -/
def lookupGroup : List (GroupKey × GroupVal) → GroupKey → Option GroupVal
  | [], _ => none
  | (k', g) :: rest, k => if k' = k then some g else lookupGroup rest k

/-- The event-reading loop of `mesh_spawn_system`: fold all pending
mesh-spawn events into the consolidated group map. -/
def consolidate (tfs : TransformTable) (evs : List SpawnEv) :
    List (GroupKey × GroupVal) :=
  evs.foldl (upsertGroup tfs) []

/-- Modelled from the spec: the Property Resolver's float accessor
(`MapEntityProperties::get_property_as_f32`, `components.rs` is not among the
provided sources): "given a property-key mapping and a key, return a typed
value with a caller-supplied default when the key is absent or unparsable". -/
def get_property_as_f32 (props : Props) (k : String) (dflt : ℚ) : ℚ :=
  match getProp props k with
  | none => dflt
  | some v => (parseNum? v).getD dflt

/-- Modelled from the spec: the Property Resolver's vector accessor
(`get_property_as_vec3`): "3-component vector (three whitespace-separated
floats; malformed → default)". -/
def get_property_as_vec3 (props : Props) (k : String) (dflt : Vec3) : Vec3 :=
  match getProp props k with
  | none => dflt
  | some s =>
    match (splitSpaces s).map parseNum? with
    | [some a, some b, some c] => ⟨a, b, c⟩
    | _ => dflt

/-- Modelled from the spec: the Property Resolver's boolean accessor
(`get_property_as_bool`): "`"1"`/`"true"` → true, else false,
absent → default". -/
def get_property_as_bool (props : Props) (k : String) (dflt : Bool) : Bool :=
  match getProp props k with
  | none => dflt
  | some v => v == "1" || v == "true"

/-- Modelled from the spec: the Property Resolver's "string-or-none" accessor
(`get_property_as_string`): the property's value when present, else the
caller-supplied default option. -/
def get_property_as_string (props : Props) (k : String) (dflt : Option String) :
    Option String :=
  match getProp props k with
  | some v => some v
  | none => dflt

/-- Modelled from the spec: the mover state machine's states; `components.rs`
is not among the provided sources and "Initial state is always
Idle-at-origin", so `MoverState::default()` is `idleAtOrigin`. -/
inductive MoverStateQ where
  | idleAtOrigin
  | movingToDestination
  | idleAtDestination
  | movingToOrigin
deriving DecidableEq

/-- The `Mover` component as filled in by `post_build_map_system`
(times in seconds, `Duration::from_secs_f32`). -/
structure MoverQ where
  movingTime : ℚ
  destinationTime : ℚ
  destinationOffset : Vec3
  state : MoverStateQ
deriving DecidableEq

/-- The `Door` component as filled in by `post_build_map_system`. -/
structure DoorQ where
  key : Option String
  openOnce : Bool
deriving DecidableEq

/-- The `"mover"` arm of `post_build_map_system`: the `Mover` component with
its defaults, and a `Door` component exactly when `mover_kind` resolves to
`"door"` (default kind `"linear"` when the property is absent). -/
def resolveMoverComp (u : MapUnits) (props : Props) : MoverQ :=
  { movingTime := get_property_as_f32 props "moving_time" 1
    destinationTime := get_property_as_f32 props "destination_time" 2
    destinationOffset :=
      toBevyPosition (get_property_as_vec3 props "destination_offset" Vec3.zero) u
    state := MoverStateQ.idleAtOrigin }

/-- The conditional `Door` insertion of the `"mover"` arm. -/
def resolveDoor (props : Props) : Option DoorQ :=
  match get_property_as_string props "mover_kind" (some "linear") with
  | some moverKind =>
    if moverKind == "door" then
      some ⟨get_property_as_string props "key" none,
            get_property_as_bool props "open_once" false⟩
    else none
  | none => none

def resolveMover (u : MapUnits) (props : Props) : MoverQ × Option DoorQ :=
  (resolveMoverComp u props, resolveDoor props)

/-- The behavior `post_build_map_system` attaches for a classname.  The two
light arms attach engine light bundles whose numeric fields no claim
inspects; they are recorded as bare tags. -/
inductive BehaviorQ where
  | light
  | directionalLight
  | mover (m : MoverQ) (d : Option DoorQ)
  | inert
deriving DecidableEq

/-- The classname dispatch of `post_build_map_system`. -/
def postBuildBehavior (u : MapUnits) (classname : String) (props : Props) :
    BehaviorQ :=
  match classname with
  | "light" => .light
  | "directional_light" => .directionalLight
  | "mover" => .mover (resolveMoverComp u props) (resolveDoor props)
  | _ => .inert

/-- Decidable equality for `Except` results (not derived automatically). -/
instance {ε α : Type} [DecidableEq ε] [DecidableEq α] : DecidableEq (Except ε α)
  | .error e, .error f =>
    if h : e = f then .isTrue (by rw [h]) else .isFalse (fun hh => h (Except.error.inj hh))
  | .error _, .ok _ => .isFalse (fun hh => Except.noConfusion hh)
  | .ok _, .error _ => .isFalse (fun hh => Except.noConfusion hh)
  | .ok a, .ok b =>
    if h : a = b then .isTrue (by rw [h]) else .isFalse (fun hh => h (Except.ok.inj hh))

/-- The vertices the face loop folds into `brush_vertices`: the union of the
vertices of the faces present in the triangulation output, in face order. -/
def keptVertices : List Face → List Vec3
  | [] => []
  | f :: fs => if f.hasIndices then f.vertices ++ keptVertices fs else keptVertices fs

lemma stepFace_brushVertices (acc : FaceAccum) (f : Face) :
    (stepFace acc f).brushVertices =
      if f.hasIndices then acc.brushVertices ++ f.vertices else acc.brushVertices := by
  cases hI : f.hasIndices
  · simp [stepFace, hI]
  · cases hR : reservedNoRender f.texture <;> simp [stepFace, hI, hR]

lemma stepFace_hasFoliage (acc : FaceAccum) (f : Face) :
    (stepFace acc f).hasFoliage = (acc.hasFoliage || foliageFace f) := by
  cases hI : f.hasIndices
  · simp [stepFace, hI, foliageFace]
  · cases hR : reservedNoRender f.texture
    · simp [stepFace, hI, hR, foliageFace]
    · simp [stepFace, hI, hR, foliageFace]

lemma foldl_stepFace_brushVertices (faces : List Face) :
    ∀ acc : FaceAccum,
      (faces.foldl stepFace acc).brushVertices = acc.brushVertices ++ keptVertices faces := by
  induction faces with
  | nil => intro acc; simp [keptVertices]
  | cons f fs ih =>
    intro acc
    simp only [List.foldl_cons, keptVertices]
    rw [ih, stepFace_brushVertices]
    cases hI : f.hasIndices <;> simp [List.append_assoc]

lemma foldl_stepFace_hasFoliage (faces : List Face) :
    ∀ acc : FaceAccum,
      (faces.foldl stepFace acc).hasFoliage = (acc.hasFoliage || faces.any foliageFace) := by
  induction faces with
  | nil => intro acc; simp
  | cons f fs ih =>
    intro acc
    simp only [List.foldl_cons, List.any_cons]
    rw [ih, stepFace_hasFoliage, Bool.or_assoc]

lemma buildBrushFaces_brushVertices (faces : List Face) :
    (buildBrushFaces faces).brushVertices = keptVertices faces := by
  simpa [buildBrushFaces] using foldl_stepFace_brushVertices faces ⟨[], [], false⟩

lemma buildBrushFaces_hasFoliage (faces : List Face) :
    (buildBrushFaces faces).hasFoliage = faces.any foliageFace := by
  simpa [buildBrushFaces] using foldl_stepFace_hasFoliage faces ⟨[], [], false⟩

lemma mem_keptVertices {faces : List Face} {f : Face}
    (hf : f ∈ faces) (hI : f.hasIndices = true) :
    ∀ v ∈ f.vertices, v ∈ keptVertices faces := by
  induction faces with
  | nil => cases hf
  | cons g gs ih =>
    intro v hv
    rcases List.mem_cons.mp hf with h | h
    · subst h
      simp [keptVertices, hI, List.mem_append, hv]
    · have := ih h v hv
      unfold keptVertices
      cases g.hasIndices <;> simp [this]

/-- Membership after an `upsertMesh`: an entry either was already there, is
the freshly inserted one, or is an old entry at the inserted key merged with
the new fragment. -/
lemma mem_upsertMesh {m : List (String × MeshQ)} {k : String} {mesh : MeshQ}
    {p : String × MeshQ} (hp : p ∈ upsertMesh m k mesh) :
    p ∈ m ∨ p = (k, mesh) ∨ ∃ old, (k, old) ∈ m ∧ p = (k, old.merge mesh) := by
  induction m with
  | nil =>
    simp only [upsertMesh, List.mem_singleton] at hp
    exact Or.inr (Or.inl hp)
  | cons q rest ih =>
    obtain ⟨k', m'⟩ := q
    by_cases hk : k' == k
    · simp only [upsertMesh, hk, if_true] at hp
      rcases List.mem_cons.mp hp with h | h
      · have hkk : k' = k := eq_of_beq hk
        subst hkk
        exact Or.inr (Or.inr ⟨m', List.mem_cons_self _ _, h⟩)
      · exact Or.inl (List.mem_cons_of_mem _ h)
    · simp only [upsertMesh, hk, if_false] at hp
      rcases List.mem_cons.mp hp with h | h
      · exact Or.inl (List.mem_cons.mpr (Or.inl h))
      · rcases ih h with h' | h' | ⟨old, hold, hpe⟩
        · exact Or.inl (List.mem_cons_of_mem _ h')
        · exact Or.inr (Or.inl h')
        · exact Or.inr (Or.inr ⟨old, List.mem_cons_of_mem _ hold, hpe⟩)

/-- Invariant propagation along the face loop. -/
lemma foldl_stepFace_inv {P : FaceAccum → Prop}
    (hstep : ∀ acc f, P acc → P (stepFace acc f)) :
    ∀ (faces : List Face) (acc : FaceAccum), P acc → P (faces.foldl stepFace acc) := by
  intro faces
  induction faces with
  | nil => intro acc h; exact h
  | cons f fs ih => intro acc h; exact ih _ (hstep acc f h)

lemma exceptMap_ok_elim {ε α β : Type} {e : Except ε α} {g : α → β} {b : β}
    (h : Except.map g e = .ok b) : ∃ a, e = .ok a ∧ b = g a := by
  cases e with
  | error err => simp [Except.map] at h
  | ok a => exact ⟨a, rfl, by simpa [Except.map] using h.symm⟩

lemma isOk_map {ε α β : Type} (g : α → β) (e : Except ε α) :
    (Except.map g e).isOk = e.isOk := by
  cases e <;> rfl

lemma isOk_error {ε α : Type} (err : ε) : (Except.error err : Except ε α).isOk = false := rfl

lemma isOk_ok {ε α : Type} (a : α) : (Except.ok a : Except ε α).isOk = true := rfl

lemma parseTriple_isOk (s : String) : (parseTriple s).isOk = !badTriple s := by
  rcases hsp : splitSpaces s with _ | ⟨t0, _ | ⟨t1, _ | ⟨t2, _ | ⟨t3, ts⟩⟩⟩⟩ <;>
    simp only [parseTriple, badTriple, hsp] <;>
    try simp [isOk_ok]
  cases h0 : parseNum? t0 <;> cases h1 : parseNum? t1 <;> cases h2 : parseNum? t2 <;>
    simp [h0, h1, h2, isOk_ok, isOk_error]

lemma badTriple_of_err {s : String} {err : BuildError}
    (h : parseTriple s = .error err) : badTriple s = true := by
  have hh := parseTriple_isOk s
  rw [h, isOk_error] at hh
  cases hb : badTriple s
  · rw [hb] at hh; cases hh
  · rfl

lemma badTriple_of_ok {s : String} {o : Option Vec3}
    (h : parseTriple s = .ok o) : badTriple s = false := by
  have hh := parseTriple_isOk s
  rw [h, isOk_ok] at hh
  cases hb : badTriple s
  · rfl
  · rw [hb] at hh; cases hh

lemma resolvePointEnt_isOk (u : MapUnits) (e : Props) :
    (resolvePointEnt u e).isOk = !pointAborts e := by
  cases hO : parseTriple ((getProp e "origin").getD "0 0 0") with
  | error err =>
    simp [resolvePointEnt, hO, pointAborts, badTriple_of_err hO, isOk_error]
  | ok o? =>
    cases hA : parseTriple ((getProp e "angles").getD "0 0 0") with
    | error err =>
      simp [resolvePointEnt, hO, hA, pointAborts, badTriple_of_ok hO,
        badTriple_of_err hA, isOk_error]
    | ok a? =>
      simp [resolvePointEnt, hO, hA, pointAborts, badTriple_of_ok hO,
        badTriple_of_ok hA, isOk_ok]

lemma exceptMap_isOk {α β : Type} (f : α → Except BuildError β) (l : List α) :
    (exceptMap f l).isOk = l.all (fun a => (f a).isOk) := by
  induction l with
  | nil => rfl
  | cons a as ih =>
    cases h : f a with
    | error err => simp [exceptMap, h, isOk_error]
    | ok b =>
      cases h2 : exceptMap f as with
      | error err =>
        rw [h2, isOk_error] at ih
        simp [exceptMap, h, h2, isOk_ok, isOk_error, List.all_cons, ih.symm]
      | ok bs =>
        rw [h2, isOk_ok] at ih
        simp [exceptMap, h, h2, isOk_ok, List.all_cons, ih.symm]

lemma all_not_eq_not_any {α : Type} (p : α → Bool) (l : List α) :
    l.all (fun a => !p a) = !l.any p := by
  induction l with
  | nil => rfl
  | cons a as ih => simp [List.all_cons, List.any_cons, ih]

lemma buildBrush_isOk (mats : MatTable) (mapId brushEntId colliderId : ℕ)
    (classname : String) (props : Props) (faces : List Face) :
    (buildBrush mats mapId brushEntId colliderId classname props faces).isOk =
      !brushAborts classname props faces := by
  unfold buildBrush brushAborts
  cases hHull : convexHull? (buildBrushFaces faces).brushVertices with
  | none => simp [isOk_ok]
  | some hull =>
    rw [isOk_map]
    by_cases hTM : (classname == "trigger_multiple") = true
    · cases hT : getProp props "target" <;>
        simp [hTM, hT, isOk_ok, isOk_error]
    · by_cases hTO : (classname == "trigger_once") = true
      · cases hT : getProp props "target" <;>
          simp [hTM, hTO, hT, isOk_ok, isOk_error]
      · by_cases hF : (buildBrushFaces faces).hasFoliage = true <;>
          simp [hTM, hTO, hF, isOk_ok]

lemma buildBrushEnt_isOk (mats : MatTable) (mapId : ℕ) (e : BrushEnt) :
    (buildBrushEnt mats mapId e).isOk = !brushEntAborts e := by
  unfold buildBrushEnt brushEntAborts
  cases hP : e.props? with
  | none => simp [isOk_error]
  | some props =>
    rw [isOk_map, exceptMap_isOk]
    have hfu : (fun b => (buildBrush mats mapId 0 0 ((getProp props "classname").getD "") props b).isOk)
        = fun b => !brushAborts ((getProp props "classname").getD "") props b := by
      funext b
      exact buildBrush_isOk mats mapId 0 0 _ props b
    rw [hfu, all_not_eq_not_any]

lemma buildMap_isOk (u : MapUnits) (mapId : ℕ) (inp : MapInput) :
    (buildMap u mapId inp).isOk =
      (inp.pointEnts.all (fun e => !pointAborts e) &&
       inp.brushEnts.all (fun e => !brushEntAborts e)) := by
  have hP : (exceptMap (resolvePointEnt u) inp.pointEnts).isOk =
      inp.pointEnts.all (fun e => !pointAborts e) := by
    rw [exceptMap_isOk]
    congr 1
    funext e
    exact resolvePointEnt_isOk u e
  have hB : (exceptMap (buildBrushEnt inp.mats mapId) inp.brushEnts).isOk =
      inp.brushEnts.all (fun e => !brushEntAborts e) := by
    rw [exceptMap_isOk]
    congr 1
    funext e
    exact buildBrushEnt_isOk inp.mats mapId e
  cases h1 : exceptMap (resolvePointEnt u) inp.pointEnts with
  | error err =>
    rw [h1, isOk_error] at hP
    simp [buildMap, h1, isOk_error, hP.symm]
  | ok points =>
    rw [h1, isOk_ok] at hP
    cases h2 : exceptMap (buildBrushEnt inp.mats mapId) inp.brushEnts with
    | error err =>
      rw [h2, isOk_error] at hB
      simp [buildMap, h1, h2, isOk_error, hP.symm, hB.symm]
    | ok brs =>
      rw [h2, isOk_ok] at hB
      simp [buildMap, h1, h2, isOk_ok, hP.symm, hB.symm]

/-- The mesh fragment built for one face (positions, possibly foliage-
overridden normals, uvs, triangle indices). -/
def faceMesh (f : Face) : MeshQ :=
  ⟨f.vertices,
   if strHasSub f.texture "-f" then f.normals.map (fun _ => Vec3.up) else f.normals,
   f.uvs, f.indices⟩

lemma stepFace_meshesToSpawn (acc : FaceAccum) (f : Face) :
    (stepFace acc f).meshesToSpawn =
      if f.hasIndices && !reservedNoRender f.texture
      then upsertMesh acc.meshesToSpawn f.texture (faceMesh f)
      else acc.meshesToSpawn := by
  cases hI : f.hasIndices
  · simp [stepFace, hI]
  · cases hR : reservedNoRender f.texture <;> simp [stepFace, hI, hR, faceMesh]

lemma merge_normals (a b : MeshQ) : (a.merge b).normals = a.normals ++ b.normals := rfl

lemma meshesToSpawn_not_reserved (faces : List Face) :
    ∀ p ∈ (buildBrushFaces faces).meshesToSpawn, reservedNoRender p.1 = false := by
  have base : ∀ p ∈ (FaceAccum.mk [] [] false).meshesToSpawn, reservedNoRender p.1 = false := by
    intro p hp; cases hp
  refine @foldl_stepFace_inv
    (fun acc => ∀ p ∈ acc.meshesToSpawn, reservedNoRender p.1 = false)
    ?_ faces ⟨[], [], false⟩ base
  intro acc f hP p hp
  rw [stepFace_meshesToSpawn] at hp
  by_cases hc : (f.hasIndices && !reservedNoRender f.texture) = true
  · rw [if_pos hc] at hp
    have hR : reservedNoRender f.texture = false := by
      cases hRR : reservedNoRender f.texture
      · rfl
      · rw [hRR] at hc; simp at hc
    rcases mem_upsertMesh hp with h | h | ⟨old, hold, hpe⟩
    · exact hP p h
    · rw [h]; exact hR
    · rw [hpe]; exact hR
  · rw [if_neg hc] at hp
    exact hP p hp

lemma meshesToSpawn_foliage_normals (faces : List Face) :
    ∀ p ∈ (buildBrushFaces faces).meshesToSpawn, strHasSub p.1 "-f" = true →
      ∀ n ∈ p.2.normals, n = Vec3.up := by
  have base : ∀ p ∈ (FaceAccum.mk [] [] false).meshesToSpawn,
      strHasSub p.1 "-f" = true → ∀ n ∈ p.2.normals, n = Vec3.up := by
    intro p hp; cases hp
  refine @foldl_stepFace_inv
    (fun acc => ∀ p ∈ acc.meshesToSpawn, strHasSub p.1 "-f" = true →
      ∀ n ∈ p.2.normals, n = Vec3.up)
    ?_ faces ⟨[], [], false⟩ base
  intro acc f hP p hp hsub
  rw [stepFace_meshesToSpawn] at hp
  by_cases hc : (f.hasIndices && !reservedNoRender f.texture) = true
  · rw [if_pos hc] at hp
    have hup : strHasSub f.texture "-f" = true → ∀ n ∈ (faceMesh f).normals, n = Vec3.up := by
      intro hs n hn
      unfold faceMesh at hn
      rw [hs] at hn
      simp only [if_true] at hn
      rcases List.mem_map.mp hn with ⟨_, _, hq⟩
      exact hq.symm
    rcases mem_upsertMesh hp with h | h | ⟨old, hold, hpe⟩
    · exact hP p h hsub
    · rw [h] at hsub ⊢
      exact hup hsub
    · rw [hpe] at hsub ⊢
      rw [hpe] at hp
      intro n hn
      rw [merge_normals] at hn
      rcases List.mem_append.mp hn with h' | h'
      · exact hP (f.texture, old) hold hsub n h'
      · exact hup hsub n h'
  · rw [if_neg hc] at hp
    exact hP p hp hsub

lemma buildBrush_hullNone {mats : MatTable} {mapId brushEntId colliderId : ℕ}
    {classname : String} {props : Props} {faces : List Face}
    (hHull : convexHull? (buildBrushFaces faces).brushVertices = none) :
    buildBrush mats mapId brushEntId colliderId classname props faces = .ok ⟨none, []⟩ := by
  unfold buildBrush
  rw [hHull]

lemma buildBrush_events_sub {mats : MatTable} {mapId brushEntId colliderId : ℕ}
    {classname : String} {props : Props} {faces : List Face} {res : BrushResult}
    (h : buildBrush mats mapId brushEntId colliderId classname props faces = .ok res) :
    ∀ ev ∈ res.events, ∃ p, p ∈ (buildBrushFaces faces).meshesToSpawn ∧
      ev.textureName = p.1 ∧ ev.mesh = p.2 ∧ ev.collider = some colliderId := by
  unfold buildBrush at h
  cases hHull : convexHull? (buildBrushFaces faces).brushVertices with
  | none =>
    rw [hHull] at h
    have hres : res = ⟨none, []⟩ := (Except.ok.inj h).symm
    rw [hres]
    intro ev hev
    cases hev
  | some hull =>
    rw [hHull] at h
    rcases exceptMap_ok_elim h with ⟨attach, _, hres⟩
    intro ev hev
    rw [hres] at hev
    simp only at hev
    rcases List.mem_map.mp hev with ⟨p, hpf, hpe⟩
    refine ⟨p, (List.mem_filter.mp hpf).1, ?_, ?_, ?_⟩ <;> rw [← hpe]

lemma buildBrush_collider_nonTrigger {mats : MatTable} {mapId brushEntId colliderId : ℕ}
    {classname : String} {props : Props} {faces : List Face} {res : BrushResult}
    (hTM : (classname == "trigger_multiple") = false)
    (hTO : (classname == "trigger_once") = false)
    (h : buildBrush mats mapId brushEntId colliderId classname props faces = .ok res)
    (hHull : (convexHull? (buildBrushFaces faces).brushVertices).isSome = true) :
    res.collider = some (if (buildBrushFaces faces).hasFoliage
      then ColliderAttach.noCollide else ColliderAttach.staticSolid) := by
  unfold buildBrush at h
  cases hHullE : convexHull? (buildBrushFaces faces).brushVertices with
  | none => rw [hHullE] at hHull; cases hHull
  | some hull =>
    rw [hHullE] at h
    simp only [hTM, hTO, Bool.false_eq_true, if_false] at h
    cases hF : (buildBrushFaces faces).hasFoliage
    · rw [hF] at h
      simp only [Bool.false_eq_true, if_false, Except.map] at h
      rw [← Except.ok.inj h]
      simp
    · rw [hF] at h
      simp only [if_true, Except.map] at h
      rw [← Except.ok.inj h]
      simp

lemma lookupGroup_upsertGroup (tfs : TransformTable) (gs : List (GroupKey × GroupVal))
    (ev : SpawnEv) (k : GroupKey) :
    (lookupGroup (upsertGroup tfs gs ev) k).isSome = true ↔
      (keyOf tfs ev = k ∨ (lookupGroup gs k).isSome = true) := by
  induction gs with
  | nil =>
    by_cases hk : keyOf tfs ev = k <;> simp [upsertGroup, lookupGroup, hk]
  | cons g rest ih =>
    obtain ⟨k', gv⟩ := g
    by_cases h1 : k' = keyOf tfs ev
    · by_cases h2 : k' = k
      · have hkk : keyOf tfs ev = k := h1.symm.trans h2
        simp [upsertGroup, lookupGroup, h1, h2, hkk]
      · have hkk : ¬ keyOf tfs ev = k := fun hh => h2 (h1.trans hh)
        simp [upsertGroup, lookupGroup, h1, h2, hkk]
    · by_cases h2 : k' = k
      · subst h2
        simp [upsertGroup, lookupGroup, h1]
      · simp only [upsertGroup, h1, if_false, lookupGroup, h2]
        exact ih

lemma lookupGroup_foldl (tfs : TransformTable) (evs : List SpawnEv) :
    ∀ (gs : List (GroupKey × GroupVal)) (k : GroupKey),
      (lookupGroup (evs.foldl (upsertGroup tfs) gs) k).isSome = true ↔
        ((lookupGroup gs k).isSome = true ∨ ∃ ev ∈ evs, keyOf tfs ev = k) := by
  induction evs with
  | nil => intro gs k; simp
  | cons ev evs ih =>
    intro gs k
    simp only [List.foldl_cons]
    rw [ih, lookupGroup_upsertGroup]
    simp only [List.mem_cons]
    constructor
    · rintro ((h | h) | h)
      · exact Or.inr ⟨ev, Or.inl rfl, h⟩
      · exact Or.inl h
      · rcases h with ⟨e, he, hk⟩
        exact Or.inr ⟨e, Or.inr he, hk⟩
    · rintro (h | ⟨e, (he | he), hk⟩)
      · exact Or.inl (Or.inr h)
      · exact Or.inl (Or.inl (he ▸ hk))
      · exact Or.inr ⟨e, he, hk⟩

/-- An event lands (creates or merges) in exactly the group keyed by its
(brush, material, bucket) triple. -/
lemma lookupGroup_consolidate (tfs : TransformTable) (evs : List SpawnEv) (k : GroupKey) :
    (lookupGroup (consolidate tfs evs) k).isSome = true ↔ ∃ ev ∈ evs, keyOf tfs ev = k := by
  unfold consolidate
  rw [lookupGroup_foldl]
  simp [lookupGroup]

lemma upsertGroup_collider_isSome (tfs : TransformTable) :
    ∀ (gs : List (GroupKey × GroupVal)) (ev : SpawnEv),
      (∀ g ∈ gs, g.2.collider.isSome = true) → ev.collider.isSome = true →
      ∀ g ∈ upsertGroup tfs gs ev, g.2.collider.isSome = true := by
  intro gs
  induction gs with
  | nil =>
    intro ev hgs hev g hg
    simp only [upsertGroup, List.mem_singleton] at hg
    rw [hg]
    exact hev
  | cons g0 rest ih =>
    intro ev hgs hev g hg
    obtain ⟨k', gv⟩ := g0
    by_cases h1 : k' = keyOf tfs ev
    · simp only [upsertGroup, h1, if_true] at hg
      rcases List.mem_cons.mp hg with h | h
      · rw [h]
        have := hgs (k', gv) (List.mem_cons_self _ _)
        simpa [mergeIntoGroup] using this
      · exact hgs g (List.mem_cons_of_mem _ h)
    · simp only [upsertGroup, h1, if_false] at hg
      rcases List.mem_cons.mp hg with h | h
      · rw [h]
        exact hgs (k', gv) (List.mem_cons_self _ _)
      · exact ih ev (fun g' hg' => hgs g' (List.mem_cons_of_mem _ hg')) hev g h

/-- Collider references survive consolidation: if every event carries a
collider reference, so does every consolidated group. -/
lemma consolidate_collider_isSome (tfs : TransformTable) (evs : List SpawnEv)
    (hevs : ∀ ev ∈ evs, ev.collider.isSome = true) :
    ∀ g ∈ consolidate tfs evs, g.2.collider.isSome = true := by
  unfold consolidate
  have main : ∀ (l : List SpawnEv) (gs : List (GroupKey × GroupVal)),
      (∀ ev ∈ l, ev.collider.isSome = true) →
      (∀ g ∈ gs, g.2.collider.isSome = true) →
      ∀ g ∈ l.foldl (upsertGroup tfs) gs, g.2.collider.isSome = true := by
    intro l
    induction l with
    | nil => intro gs _ hgs; exact hgs
    | cons ev l ih =>
      intro gs hl hgs
      simp only [List.foldl_cons]
      exact ih _ (fun e he => hl e (List.mem_cons_of_mem _ he))
        (upsertGroup_collider_isSome tfs gs ev hgs (hl ev (List.mem_cons_self _ _)))
  exact main evs [] hevs (fun g hg => by cases hg)

/-! ## Claim theorems -/

/-- A quad face with an ordinary texture. -/
def c1RockFace : Face :=
  ⟨"rock", true, [⟨0,0,0⟩, ⟨1,0,0⟩, ⟨1,1,0⟩, ⟨0,1,0⟩],
   [⟨0,0,-1⟩, ⟨0,0,-1⟩, ⟨0,0,-1⟩, ⟨0,0,-1⟩],
   [(0,0), (1,0), (1,1), (0,1)], [0,1,2,0,2,3]⟩

/-- A triangle face with a foliage-marked texture. -/
def c1BushFace : Face :=
  ⟨"bush-f", true, [⟨0,0,1⟩, ⟨1,0,1⟩, ⟨1,1,1⟩],
   [⟨0,0,1⟩, ⟨0,0,1⟩, ⟨0,0,1⟩], [(0,0), (1,0), (1,1)], [0,1,2]⟩

/-- Claim C1 counterexample: a non-trigger brush with one ordinary face and
one foliage face — not a brush of only foliage faces — still loses its
collider (`has_foliage` is set by ANY foliage face), contradicting the
claimed "keeps its solid static collision volume". -/
theorem c1_counterexample :
    buildBrush [] 0 0 0 "func_wall" [] [c1RockFace, c1BushFace] =
      .ok ⟨some ColliderAttach.noCollide, []⟩ ∧
    [c1RockFace, c1BushFace].all (fun f => strHasSub f.texture "-f") = false := by
  decide

/-- Claim C1 (amended): for every brush whose classname is not
trigger_multiple or trigger_once and whose point set yields a convex hull,
the collision volume is suppressed (collider component removed) iff the
brush has AT LEAST ONE foliage face (a face with triangulation output,
non-reserved texture, texture containing "-f"); when it has none the brush
keeps its solid static collision volume. -/
theorem c1_collision_suppressed_iff_any_foliage
    (mats : MatTable) (mapId brushEntId colliderId : ℕ)
    (classname : String) (props : Props) (faces : List Face) (res : BrushResult)
    (hTM : (classname == "trigger_multiple") = false)
    (hTO : (classname == "trigger_once") = false)
    (hok : buildBrush mats mapId brushEntId colliderId classname props faces = .ok res)
    (hHull : (convexHull? (buildBrushFaces faces).brushVertices).isSome = true) :
    (res.collider = some ColliderAttach.noCollide ↔ faces.any foliageFace = true) ∧
    (faces.any foliageFace = false → res.collider = some ColliderAttach.staticSolid) := by
  have hc := buildBrush_collider_nonTrigger hTM hTO hok hHull
  rw [buildBrushFaces_hasFoliage] at hc
  cases hF : faces.any foliageFace
  · rw [hF] at hc
    simp only [Bool.false_eq_true, if_false] at hc
    simp [hc]
  · rw [hF] at hc
    simp only [if_true] at hc
    simp [hc]

/-- Claim C1 witness: the amended statement applied to the two-face brush. -/
theorem c1_witness :
    ((⟨some ColliderAttach.noCollide, []⟩ : BrushResult).collider =
        some ColliderAttach.noCollide ↔
      [c1RockFace, c1BushFace].any foliageFace = true) ∧
    ([c1RockFace, c1BushFace].any foliageFace = false →
      (⟨some ColliderAttach.noCollide, []⟩ : BrushResult).collider =
        some ColliderAttach.staticSolid) :=
  c1_collision_suppressed_iff_any_foliage [] 0 0 0 "func_wall" []
    [c1RockFace, c1BushFace] ⟨some ColliderAttach.noCollide, []⟩
    (by decide) (by decide) (by decide) (by decide)

/-- A one-vertex mesh fragment. -/
def ptMesh (v : Vec3) : MeshQ := ⟨[v], [], [], []⟩

/-- Pure translation by one unit along x. -/
def c2Translate1 : AffQ := ⟨Mat3.id, ⟨1, 0, 0⟩⟩

def c2Transforms : TransformTable := [(1, AffQ.id), (2, c2Translate1)]

/-- First fragment: reference node 1 (identity transform). -/
def c2EvFirst : SpawnEv := ⟨0, 5, ptMesh ⟨0,0,0⟩, some 1, "stone", "stone", (16,16)⟩

/-- Incoming fragment: reference node 2 (translated by (1,0,0)). -/
def c2EvIncoming : SpawnEv := ⟨0, 5, ptMesh ⟨0,0,0⟩, some 2, "stone", "stone", (16,16)⟩

/-- Claim C2: evaluation at the failing input.  The consolidator transforms
the incoming vertex by `inverse(incoming transform) * first transform`
(yielding (-1,0,0)), while the claimed — and geometrically correct —
re-expression in the first fragment's frame,
`inverse(first transform) * incoming transform`, yields (1,0,0). -/
theorem c2_merge_transform_eval :
    consolidate c2Transforms [c2EvFirst, c2EvIncoming] =
      [((5, "stone", (0, 0, 0)),
        ⟨some 1, 0, ⟨[⟨0,0,0⟩, ⟨-1,0,0⟩], [], [], []⟩, (16,16), "stone"⟩)] ∧
    AffQ.apply (AffQ.comp (AffQ.inv (lookupTransform c2Transforms 1))
      (lookupTransform c2Transforms 2)) ⟨0,0,0⟩ = ⟨1,0,0⟩ := by
  norm_num [consolidate, upsertGroup, keyOf, bucketOf, aabbCenter, refTransform,
    lookupTransform, mergeIntoGroup, AffQ.inv, AffQ.comp, AffQ.apply, AffQ.id,
    Mat3.inv, Mat3.mul, Mat3.mulVec, Mat3.det, Mat3.id, MeshQ.transformedBy,
    MeshQ.merge, ptMesh, c2Transforms, c2EvFirst, c2EvIncoming, c2Translate1,
    Vec3.zero]

/-- Claim C3 counterexample: an `origin` of exactly three non-numeric tokens
makes the build abort (the `.parse::<f32>().unwrap()` panic), contradicting
"never aborts the build". -/
theorem c3_counterexample :
    (splitSpaces "a b c").length = 3 ∧
    resolvePointEnt ⟨1⟩ [("origin", "a b c")] = Except.error BuildError.parsePanic := by
  decide

/-- Claim C3 (amended): origin/angles strings are parsed into a vector only
when exactly three tokens are present and all three parse as numbers; any
other token count falls back (translation `Vec3::ZERO`, rotation identity)
without aborting; exactly three tokens with a non-numeric token abort the
build. -/
theorem c3_parse_fallback_characterization :
    (∀ s : String, (splitSpaces s).length ≠ 3 → parseTriple s = Except.ok none) ∧
    (∀ s : String, (splitSpaces s).length = 3 →
      ((splitSpaces s).all (fun t => (parseNum? t).isSome) = true →
        ∃ v, parseTriple s = Except.ok (some v)) ∧
      ((splitSpaces s).all (fun t => (parseNum? t).isSome) = false →
        parseTriple s = Except.error BuildError.parsePanic)) ∧
    (∀ (u : MapUnits) (e : Props) (res : PointSpawn),
      resolvePointEnt u e = Except.ok res →
      (parseTriple ((getProp e "origin").getD "0 0 0") = Except.ok none →
        res.translation = Vec3.zero) ∧
      (parseTriple ((getProp e "angles").getD "0 0 0") = Except.ok none →
        res.rotation = Vec3.zero)) := by
  refine ⟨?_, ?_, ?_⟩
  · intro s h
    rcases hsp : splitSpaces s with _ | ⟨t0, _ | ⟨t1, _ | ⟨t2, _ | ⟨t3, ts⟩⟩⟩⟩
    · simp [parseTriple, hsp]
    · simp [parseTriple, hsp]
    · simp [parseTriple, hsp]
    · exfalso; rw [hsp] at h; simp at h
    · simp [parseTriple, hsp]
  · intro s hlen
    obtain ⟨t0, t1, t2, hsp⟩ := List.length_eq_three.mp hlen
    constructor
    · intro hall
      rw [hsp] at hall
      simp only [List.all_cons, List.all_nil, Bool.and_true, Bool.and_eq_true] at hall
      obtain ⟨h0, h1, h2⟩ := hall
      obtain ⟨a, ha⟩ := Option.isSome_iff_exists.mp h0
      obtain ⟨b, hb⟩ := Option.isSome_iff_exists.mp h1
      obtain ⟨c, hc⟩ := Option.isSome_iff_exists.mp h2
      exact ⟨⟨a, b, c⟩, by simp [parseTriple, hsp, ha, hb, hc]⟩
    · intro hnall
      rw [hsp] at hnall
      unfold parseTriple
      rw [hsp]
      cases h0 : parseNum? t0 <;> cases h1 : parseNum? t1 <;> cases h2 : parseNum? t2 <;>
        simp [h0, h1, h2]
      simp [List.all_cons, h0, h1, h2] at hnall
  · intro u e res h
    unfold resolvePointEnt at h
    cases hO : parseTriple ((getProp e "origin").getD "0 0 0") with
    | error err =>
      rw [hO] at h
      simp at h
    | ok o? =>
      rw [hO] at h
      cases hA : parseTriple ((getProp e "angles").getD "0 0 0") with
      | error err =>
        rw [hA] at h
        simp at h
      | ok a? =>
        rw [hA] at h
        have hres := Except.ok.inj h
        constructor
        · intro hOn
          have ho : o? = none := Except.ok.inj hOn
          rw [← hres, ho]
        · intro hAn
          have ha : a? = none := Except.ok.inj hAn
          rw [← hres, ha]

/-- Claim C3 witness: the fallback, parse, panic and identity cases at
concrete inputs. -/
theorem c3_witness :
    parseTriple "1 2" = Except.ok none ∧
    (∃ v, parseTriple "0 0 0" = Except.ok (some v)) ∧
    parseTriple "a b c" = Except.error BuildError.parsePanic ∧
    (⟨"", Vec3.zero, Vec3.zero, [("origin", "1 2")], none⟩ : PointSpawn).translation
      = Vec3.zero :=
  ⟨c3_parse_fallback_characterization.1 "1 2" (by decide),
   (c3_parse_fallback_characterization.2.1 "0 0 0" (by decide)).1 (by decide),
   (c3_parse_fallback_characterization.2.1 "a b c" (by decide)).2 (by decide),
   (c3_parse_fallback_characterization.2.2 ⟨1⟩ [("origin", "1 2")]
     ⟨"", Vec3.zero, Vec3.zero, [("origin", "1 2")], none⟩ (by decide)).1 (by decide)⟩

/-- A face carrying a vertex but absent from the triangulation output. -/
def c4NoIndicesFace : Face := ⟨"rock", false, [⟨1,2,3⟩], [], [], []⟩

/-- Claim C4 counterexample: a vertex of a brush face that is absent from the
triangulation output never reaches the collision point set, so the point set
does not equal the union of the vertices of ALL of the brush's faces. -/
theorem c4_counterexample :
    (⟨1,2,3⟩ : Vec3) ∈ c4NoIndicesFace.vertices ∧
    ¬ (⟨1,2,3⟩ : Vec3) ∈ (buildBrushFaces [c4NoIndicesFace]).brushVertices := by
  decide

/-- Claim C4 (amended): the point set handed to convex-hull construction
equals the union, in face order, of the vertices of the faces present in the
triangulation output — with no face excluded on the basis of its texture —
and every vertex of every triangulated face (whatever its texture, including
trigger/clip) is in the point set. -/
theorem c4_collision_points_characterization (faces : List Face) :
    (buildBrushFaces faces).brushVertices = keptVertices faces ∧
    (∀ f ∈ faces, f.hasIndices = true → ∀ v ∈ f.vertices,
      v ∈ (buildBrushFaces faces).brushVertices) := by
  refine ⟨buildBrushFaces_brushVertices faces, ?_⟩
  intro f hf hI v hv
  rw [buildBrushFaces_brushVertices]
  exact mem_keptVertices hf hI v hv

/-- Claim C4 witness: the characterization applied to a concrete brush with
a clip face. -/
theorem c4_witness :
    (buildBrushFaces [⟨"clip", true, [⟨1,2,3⟩], [], [], []⟩]).brushVertices =
      keptVertices [⟨"clip", true, [⟨1,2,3⟩], [], [], []⟩] ∧
    (⟨1,2,3⟩ : Vec3) ∈
      (buildBrushFaces [⟨"clip", true, [⟨1,2,3⟩], [], [], []⟩]).brushVertices :=
  ⟨(c4_collision_points_characterization [⟨"clip", true, [⟨1,2,3⟩], [], [], []⟩]).1,
   (c4_collision_points_characterization [⟨"clip", true, [⟨1,2,3⟩], [], [], []⟩]).2
     ⟨"clip", true, [⟨1,2,3⟩], [], [], []⟩ (by decide) (by decide) ⟨1,2,3⟩ (by decide)⟩

/-- A map input whose only flaw is a malformed point-entity origin. -/
def c5Input : MapInput := ⟨[[("origin", "a b c")]], [], []⟩

/-- Claim C5 counterexample: the build aborts on an input that has NO brush
entities at all (so neither of the two claimed configuration-error cases is
present): a point entity whose origin has three non-numeric tokens. -/
theorem c5_counterexample :
    (buildMap ⟨1⟩ 0 c5Input).isOk = false ∧ c5Input.brushEnts = [] := by
  decide

/-- Claim C5 (amended): the build succeeds iff none of these holds —
(i) a point entity's origin/angles has exactly three tokens with a
non-numeric one (`pointAborts`); (ii) a brush-bearing entity has no
properties record, or one of its brushes is trigger-classed, yields a convex
hull, and lacks the `target` property (`brushEntAborts`).  In particular a
trigger brush missing `target` whose point set yields no hull does NOT
abort. -/
theorem c5_abort_characterization (u : MapUnits) (mapId : ℕ) (inp : MapInput) :
    (buildMap u mapId inp).isOk =
      (inp.pointEnts.all (fun e => !pointAborts e) &&
       inp.brushEnts.all (fun e => !brushEntAborts e)) :=
  buildMap_isOk u mapId inp

/-- A trigger-textured face carrying a vertex but absent from the
triangulation output. -/
def c6CexFace : Face := ⟨"trigger", false, [⟨1,2,3⟩], [], [], []⟩

/-- Claim C6 counterexample: a trigger-textured face that is absent from the
triangulation output produces no mesh fragment (as claimed) but its vertex is
NOT included in the brush's collision point set. -/
theorem c6_counterexample :
    reservedNoRender "trigger" = true ∧
    (⟨1,2,3⟩ : Vec3) ∈ c6CexFace.vertices ∧
    (buildBrushFaces [c6CexFace]).brushVertices = [] := by
  decide

/-- Claim C6 (amended): no per-texture fragment and no mesh-spawn event ever
carries a reserved texture name (trigger / clip / common/trigger /
common/clip); and for any face PRESENT IN THE TRIANGULATION OUTPUT —
reserved-textured ones included — its vertices are in the brush's collision
point set. -/
theorem c6_reserved_no_event_but_collides :
    (∀ (faces : List Face), ∀ p ∈ (buildBrushFaces faces).meshesToSpawn,
      reservedNoRender p.1 = false) ∧
    (∀ (mats : MatTable) (mapId brushEntId colliderId : ℕ) (classname : String)
      (props : Props) (faces : List Face) (res : BrushResult),
      buildBrush mats mapId brushEntId colliderId classname props faces = .ok res →
      ∀ ev ∈ res.events, reservedNoRender ev.textureName = false) ∧
    (∀ (faces : List Face) (f : Face), f ∈ faces → reservedNoRender f.texture = true →
      f.hasIndices = true → ∀ v ∈ f.vertices,
        v ∈ (buildBrushFaces faces).brushVertices) := by
  refine ⟨meshesToSpawn_not_reserved, ?_, ?_⟩
  · intro mats mapId brushEntId colliderId classname props faces res h ev hev
    rcases buildBrush_events_sub h ev hev with ⟨p, hp, ht, _, _⟩
    rw [ht]
    exact meshesToSpawn_not_reserved faces p hp
  · intro faces f hf _ hI v hv
    rw [buildBrushFaces_brushVertices]
    exact mem_keptVertices hf hI v hv

def c6Mats : MatTable := [("rock", (4, 4))]

/-- A trigger-textured face present in the triangulation output. -/
def c6TrigFace : Face := ⟨"trigger", true, [⟨0,0,0⟩, ⟨1,0,0⟩], [], [], [0]⟩

/-- A rendered rock face of the same brush. -/
def c6RockFace : Face := ⟨"rock", true, [⟨0,1,0⟩, ⟨0,0,1⟩], [⟨0,0,1⟩, ⟨0,0,1⟩], [], [0,1]⟩

/-- The single mesh-spawn event of the c6 brush. -/
def c6Ev : SpawnEv :=
  ⟨0, 0, ⟨[⟨0,1,0⟩, ⟨0,0,1⟩], [⟨0,0,1⟩, ⟨0,0,1⟩], [], [0,1]⟩, some 0, "rock", "rock", (4,4)⟩

def c6Res : BrushResult := ⟨some .staticSolid, [c6Ev]⟩

/-- Claim C6 witness: the amended statement at a concrete brush with a
triangulated trigger face and a rendered rock face. -/
theorem c6_witness :
    reservedNoRender c6Ev.textureName = false ∧
    (⟨0,0,0⟩ : Vec3) ∈ (buildBrushFaces [c6TrigFace, c6RockFace]).brushVertices :=
  ⟨c6_reserved_no_event_but_collides.2.1 c6Mats 0 0 0 "func_wall" []
     [c6TrigFace, c6RockFace] c6Res (by decide) c6Ev (by decide),
   c6_reserved_no_event_but_collides.2.2 [c6TrigFace, c6RockFace] c6TrigFace
     (by decide) (by decide) (by decide) ⟨0,0,0⟩ (by decide)⟩

def c7EvA : SpawnEv := ⟨0, 5, ptMesh ⟨10,10,10⟩, none, "grass", "grass", (8,8)⟩
def c7EvB : SpawnEv := ⟨0, 5, ptMesh ⟨40,10,10⟩, none, "grass", "grass", (8,8)⟩
def c7EvC : SpawnEv := ⟨0, 5, ptMesh ⟨60,10,10⟩, none, "grass", "grass", (8,8)⟩

lemma int_floor_eq {q : ℚ} {n : ℤ} (h1 : (n : ℚ) ≤ q) (h2 : q < n + 1) :
    Int.floor q = n :=
  Int.floor_eq_iff.mpr ⟨h1, h2⟩

lemma c7bucketA : bucketOf AffQ.id (⟨[⟨10,10,10⟩], [], [], []⟩ : MeshQ) = (0,0,0) := by
  simp only [bucketOf, aabbCenter, AffQ.id, Vec3.zero, List.foldl_nil, Prod.mk.injEq]
  refine ⟨?_, ?_, ?_⟩ <;> (apply int_floor_eq <;> norm_num)

lemma c7bucketB : bucketOf AffQ.id (⟨[⟨40,10,10⟩], [], [], []⟩ : MeshQ) = (0,0,0) := by
  simp only [bucketOf, aabbCenter, AffQ.id, Vec3.zero, List.foldl_nil, Prod.mk.injEq]
  refine ⟨?_, ?_, ?_⟩ <;> (apply int_floor_eq <;> norm_num)

lemma c7bucketC : bucketOf AffQ.id (⟨[⟨60,10,10⟩], [], [], []⟩ : MeshQ) = (1,0,0) := by
  simp only [bucketOf, aabbCenter, AffQ.id, Vec3.zero, List.foldl_nil, Prod.mk.injEq]
  refine ⟨?_, ?_, ?_⟩ <;> (apply int_floor_eq <;> norm_num)

lemma c7keyA : keyOf [] ⟨0, 5, ⟨[⟨10,10,10⟩], [], [], []⟩, none, "grass", "grass", (8,8)⟩ =
    ((5 : ℕ), "grass", ((0:ℤ), (0:ℤ), (0:ℤ))) := by
  simp only [keyOf, refTransform, lookupTransform, List.find?, Option.map, Option.getD]
  rw [c7bucketA]

lemma c7keyB : keyOf [] ⟨0, 5, ⟨[⟨40,10,10⟩], [], [], []⟩, none, "grass", "grass", (8,8)⟩ =
    ((5 : ℕ), "grass", ((0:ℤ), (0:ℤ), (0:ℤ))) := by
  simp only [keyOf, refTransform, lookupTransform, List.find?, Option.map, Option.getD]
  rw [c7bucketB]

lemma c7keyC : keyOf [] ⟨0, 5, ⟨[⟨60,10,10⟩], [], [], []⟩, none, "grass", "grass", (8,8)⟩ =
    ((5 : ℕ), "grass", ((1:ℤ), (0:ℤ), (0:ℤ))) := by
  simp only [keyOf, refTransform, lookupTransform, List.find?, Option.map, Option.getD]
  rw [c7bucketC]

/-- Claim C7: the consolidator groups exactly by
(brush node, material, spatial bucket), the bucket being the per-axis floor
of (reference translation + AABB center) / 50; concretely: centers
(10,10,10) and (40,10,10) share bucket (0,0,0) and merge into one batch,
while (60,10,10) falls in bucket (1,0,0) and stays separate. -/
theorem c7_bucket_grouping :
    (∀ (tfs : TransformTable) (evs : List SpawnEv) (k : GroupKey),
      (lookupGroup (consolidate tfs evs) k).isSome = true ↔
        ∃ ev ∈ evs, keyOf tfs ev = k) ∧
    (∀ (tfs : TransformTable) (ev : SpawnEv),
      keyOf tfs ev = (ev.brush, ev.material,
        (Int.floor (((refTransform tfs ev).tr.x + (aabbCenter ev.mesh).x) / 50),
         Int.floor (((refTransform tfs ev).tr.y + (aabbCenter ev.mesh).y) / 50),
         Int.floor (((refTransform tfs ev).tr.z + (aabbCenter ev.mesh).z) / 50)))) ∧
    (bucketOf AffQ.id (ptMesh ⟨10,10,10⟩) = (0,0,0) ∧
     bucketOf AffQ.id (ptMesh ⟨40,10,10⟩) = (0,0,0) ∧
     bucketOf AffQ.id (ptMesh ⟨60,10,10⟩) = (1,0,0)) ∧
    consolidate [] [c7EvA, c7EvB, c7EvC] =
      [((5, "grass", (0,0,0)),
        ⟨none, 0, ⟨[⟨10,10,10⟩, ⟨40,10,10⟩], [], [], []⟩, (8,8), "grass"⟩),
       ((5, "grass", (1,0,0)), ⟨none, 0, ptMesh ⟨60,10,10⟩, (8,8), "grass"⟩)] := by
  refine ⟨fun tfs evs k => lookupGroup_consolidate tfs evs k, fun tfs ev => rfl,
    ⟨c7bucketA, c7bucketB, c7bucketC⟩, ?_⟩
  norm_num [consolidate, upsertGroup, c7keyA, c7keyB, c7keyC, mergeIntoGroup,
    refTransform, lookupTransform, AffQ.inv, AffQ.comp, AffQ.apply, AffQ.id,
    Mat3.inv, Mat3.mul, Mat3.mulVec, Mat3.det, Mat3.id, MeshQ.transformedBy,
    MeshQ.merge, ptMesh, c7EvA, c7EvB, c7EvC, Vec3.zero]
  decide

/-- Claim C7 witness: the grouping characterization applied to one event. -/
theorem c7_witness :
    (lookupGroup (consolidate [] [c7EvA]) (5, "grass", (0, 0, 0))).isSome = true :=
  (c7_bucket_grouping.1 [] [c7EvA] (5, "grass", (0, 0, 0))).mpr
    ⟨c7EvA, by simp, c7keyA⟩

/-- Claim C8: every normal of a per-texture mesh fragment whose texture name
contains the foliage marker "-f" — and of every mesh-spawn event with such a
texture — equals exactly the up vector (0,1,0), whatever the geometry
library's flat normals were. -/
theorem c8_foliage_normals_up :
    (∀ (faces : List Face), ∀ p ∈ (buildBrushFaces faces).meshesToSpawn,
      strHasSub p.1 "-f" = true → ∀ n ∈ p.2.normals, n = Vec3.up) ∧
    (∀ (mats : MatTable) (mapId brushEntId colliderId : ℕ) (classname : String)
      (props : Props) (faces : List Face) (res : BrushResult),
      buildBrush mats mapId brushEntId colliderId classname props faces = .ok res →
      ∀ ev ∈ res.events, strHasSub ev.textureName "-f" = true →
        ∀ n ∈ ev.mesh.normals, n = Vec3.up) := by
  refine ⟨meshesToSpawn_foliage_normals, ?_⟩
  intro mats mapId brushEntId colliderId classname props faces res h ev hev hsub n hn
  rcases buildBrush_events_sub h ev hev with ⟨p, hp, ht, hm, _⟩
  rw [ht] at hsub
  rw [hm] at hn
  exact meshesToSpawn_foliage_normals faces p hp hsub n hn

def c8Faces : List Face :=
  [⟨"bush-f", true, [⟨2,0,0⟩, ⟨2,1,0⟩, ⟨2,0,1⟩],
    [⟨1,0,0⟩, ⟨1,0,0⟩, ⟨1,0,0⟩], [], [0,1,2]⟩]

/-- The fragment built for the c8 foliage face: its flat normals (1,0,0) have
been overridden to (0,1,0). -/
def c8Mesh : MeshQ :=
  ⟨[⟨2,0,0⟩, ⟨2,1,0⟩, ⟨2,0,1⟩], [⟨0,1,0⟩, ⟨0,1,0⟩, ⟨0,1,0⟩], [], [0,1,2]⟩

/-- Claim C8 witness: the statement at a concrete foliage face whose input
normals point along x. -/
theorem c8_witness :
    ("bush-f", c8Mesh) ∈ (buildBrushFaces c8Faces).meshesToSpawn ∧
    (⟨0,1,0⟩ : Vec3) = Vec3.up :=
  ⟨by decide,
   c8_foliage_normals_up.1 c8Faces ("bush-f", c8Mesh) (by decide) (by decide)
     ⟨0,1,0⟩ (by decide)⟩

/-- Claim C9: an entity with classname `mover` gets a Mover with defaults
moving_time 1 s, destination_time 2 s, destination_offset zero, initial state
Idle-at-origin when those properties are absent, and a Door exactly when
`mover_kind` equals "door" (absent defaults to "linear"; any other value
attaches no Door). -/
theorem c9_mover_defaults_and_door :
    (∀ (u : MapUnits) (props : Props),
      postBuildBehavior u "mover" props =
        BehaviorQ.mover (resolveMoverComp u props) (resolveDoor props)) ∧
    (∀ (u : MapUnits) (props : Props),
      getProp props "moving_time" = none → (resolveMoverComp u props).movingTime = 1) ∧
    (∀ (u : MapUnits) (props : Props),
      getProp props "destination_time" = none →
        (resolveMoverComp u props).destinationTime = 2) ∧
    (∀ (u : MapUnits) (props : Props),
      getProp props "destination_offset" = none →
        (resolveMoverComp u props).destinationOffset = Vec3.zero) ∧
    (∀ (u : MapUnits) (props : Props),
      (resolveMoverComp u props).state = MoverStateQ.idleAtOrigin) ∧
    (∀ props : Props,
      (resolveDoor props).isSome = true ↔ getProp props "mover_kind" = some "door") := by
  refine ⟨fun u props => rfl, ?_, ?_, ?_, fun u props => rfl, ?_⟩
  · intro u props h
    simp [resolveMoverComp, get_property_as_f32, h]
  · intro u props h
    simp [resolveMoverComp, get_property_as_f32, h]
  · intro u props h
    simp [resolveMoverComp, get_property_as_vec3, h, toBevyPosition, Vec3.zero]
  · intro props
    unfold resolveDoor get_property_as_string
    cases h : getProp props "mover_kind" with
    | none => simp [h]
    | some v =>
      simp only [h]
      by_cases hv : (v == "door") = true
      · have hveq : v = "door" := eq_of_beq hv
        simp [hv, hveq]
      · have hvne : ¬ v = "door" := fun hh => by rw [hh] at hv; simp at hv
        simp [hv, hvne]

/-- Claim C9 witness: defaults at the empty property bag and a Door for
`mover_kind = door`. -/
theorem c9_witness :
    postBuildBehavior ⟨1⟩ "mover" [] =
      BehaviorQ.mover (resolveMoverComp ⟨1⟩ []) (resolveDoor []) ∧
    (resolveMoverComp ⟨1⟩ []).movingTime = 1 ∧
    (resolveMoverComp ⟨1⟩ []).destinationTime = 2 ∧
    (resolveMoverComp ⟨1⟩ []).destinationOffset = Vec3.zero ∧
    (resolveMoverComp ⟨1⟩ []).state = MoverStateQ.idleAtOrigin ∧
    (resolveDoor [("mover_kind", "door")]).isSome = true :=
  ⟨c9_mover_defaults_and_door.1 ⟨1⟩ [],
   c9_mover_defaults_and_door.2.1 ⟨1⟩ [] (by decide),
   c9_mover_defaults_and_door.2.2.1 ⟨1⟩ [] (by decide),
   c9_mover_defaults_and_door.2.2.2.1 ⟨1⟩ [] (by decide),
   c9_mover_defaults_and_door.2.2.2.2.1 ⟨1⟩ [],
   (c9_mover_defaults_and_door.2.2.2.2.2 [("mover_kind", "door")]).mpr (by decide)⟩

/-- Claim C10: every mesh-spawn event the brush builder emits carries a
`some` collider reference; a brush whose point set yields no convex hull
emits no events at all; and when every event carries a collider reference,
every consolidated group does too, so the consolidator's map-root attachment
fallback is never exercised for builder-produced events. -/
theorem c10_events_always_have_collider :
    (∀ (mats : MatTable) (mapId brushEntId colliderId : ℕ) (classname : String)
      (props : Props) (faces : List Face) (res : BrushResult),
      buildBrush mats mapId brushEntId colliderId classname props faces = .ok res →
      ∀ ev ∈ res.events, ev.collider = some colliderId) ∧
    (∀ (mats : MatTable) (mapId brushEntId colliderId : ℕ) (classname : String)
      (props : Props) (faces : List Face),
      convexHull? (buildBrushFaces faces).brushVertices = none →
      buildBrush mats mapId brushEntId colliderId classname props faces = .ok ⟨none, []⟩) ∧
    (∀ (tfs : TransformTable) (evs : List SpawnEv),
      (∀ ev ∈ evs, ev.collider.isSome = true) →
      ∀ g ∈ consolidate tfs evs, g.2.collider.isSome = true) := by
  refine ⟨?_, ?_, ?_⟩
  · intro mats mapId brushEntId colliderId classname props faces res h ev hev
    rcases buildBrush_events_sub h ev hev with ⟨p, hp, _, _, hc⟩
    exact hc
  · intro mats mapId brushEntId colliderId classname props faces hHull
    exact buildBrush_hullNone hHull
  · intro tfs evs hevs
    exact consolidate_collider_isSome tfs evs hevs

/-- The c10 event, sent with collider id 3. -/
def c10Ev : SpawnEv :=
  ⟨7, 9, ⟨[⟨0,1,0⟩, ⟨0,0,1⟩], [⟨0,0,1⟩, ⟨0,0,1⟩], [], [0,1]⟩, some 3, "rock", "rock", (4,4)⟩

def c10Res : BrushResult := ⟨some .staticSolid, [c10Ev]⟩

/-- A degenerate brush face: fewer than four points, no convex hull. -/
def c10SmallFace : Face := ⟨"rock", true, [⟨0,0,0⟩], [⟨0,0,1⟩], [], [0]⟩

def c10EvB : SpawnEv := ⟨0, 5, ⟨[⟨1,1,1⟩], [], [], []⟩, some 2, "grass", "grass", (8,8)⟩

/-- Claim C10 witness: the three parts at concrete inputs. -/
theorem c10_witness :
    c10Ev.collider = some 3 ∧
    buildBrush c6Mats 0 0 0 "worldspawn" [] [c10SmallFace] = Except.ok ⟨none, []⟩ ∧
    ((5, "grass", ((0 : ℤ), (0 : ℤ), (0 : ℤ))),
      (⟨some 2, 0, ⟨[⟨1,1,1⟩], [], [], []⟩, (8,8), "grass"⟩ : GroupVal)).2.collider.isSome
      = true := by
  have hcons : consolidate [] [c10EvB] =
      [((5, "grass", (0, 0, 0)),
        ⟨some 2, 0, ⟨[⟨1,1,1⟩], [], [], []⟩, (8,8), "grass"⟩)] := by
    norm_num [consolidate, upsertGroup, keyOf, bucketOf, aabbCenter, refTransform,
      lookupTransform, c10EvB, AffQ.id, Vec3.zero]
  refine ⟨c10_events_always_have_collider.1 c6Mats 7 9 3 "func_wall" []
      [c6TrigFace, c6RockFace] c10Res (by decide) c10Ev (by decide),
    c10_events_always_have_collider.2.1 c6Mats 0 0 0 "worldspawn" []
      [c10SmallFace] (by decide),
    c10_events_always_have_collider.2.2 [] [c10EvB] (by decide) _ ?_⟩
  rw [hcons]
  simp
